import Mathlib

/-!
Formal model of the Digital Library application (src/main.py), shallowly
embedded in Lean 4. Pure decision logic of the playback/viewing state machine
and its persistence model is translated function-by-function from the source;
stateful code is modelled by explicit state passing, and engine/file-system
effects by explicit state records and action traces. Machine integers are
modelled as Int (VLC reports times and durations in milliseconds as signed
integers); zoom levels and playback rates are modelled as exact rationals,
which matches the finite decimal constants used by the source.
-/

/-- Playback states reported by the VLC engine (vlc.State in the source). -/
inductive VlcState where
  | nothingSpecial
  | opening
  | buffering
  | playing
  | paused
  | stopped
  | ended
  | error
deriving DecidableEq, Repr

/-- Audio-visual timestamp record written by save_current_vlc_timestamp
(src/main.py lines 1381-1387): position, duration, last_played, filename,
finished. -/
structure AvTimestampData where
  position : Int
  duration : Int
  last_played : String
  filename : String
  finished : Bool
deriving DecidableEq, Repr

/-- Core of save_current_vlc_timestamp (src/main.py lines 1356-1398): given the
engine state, the current time and duration read from the player, the current
clock string and the filename, it produces the record stored into the
timestamps mapping, or none when the save is skipped. Mirrors the guard
should_save (state Playing or Paused) plus the non-negativity checks, the
is_finished classification (within 2000 ms of the end) and the normalization
of position to 0 on a finished record. -/
def save_current_vlc_timestamp (state : VlcState) (current_time_ms duration_ms : Int)
    (now fname : String) : Option AvTimestampData :=
  if (state = VlcState.playing ∨ state = VlcState.paused) ∧
      duration_ms ≥ 0 ∧ current_time_ms ≥ 0 then
    let is_finished : Bool := decide (duration_ms > 0 ∧ current_time_ms ≥ duration_ms - 2000)
    some { position := if is_finished then 0 else current_time_ms
           duration := duration_ms
           last_played := now
           filename := fname
           finished := is_finished }
  else
    none

/-- In-memory record refresh performed by update_all_cards_display
(src/main.py lines 1409-1423) for the currently loaded audio-visual media:
the same normalization as the flush, gated on state Playing or Paused and on
non-negative time and duration. -/
def update_all_cards_record (state : VlcState) (current_time duration : Int)
    (now fname : String) : Option AvTimestampData :=
  if (state = VlcState.playing ∨ state = VlcState.paused) ∧
      duration ≥ 0 ∧ current_time ≥ 0 then
    let is_finished : Bool := decide (duration > 0 ∧ current_time ≥ duration - 2000)
    some { position := if is_finished then 0 else current_time
           duration := duration
           last_played := now
           filename := fname
           finished := is_finished }
  else
    none

/-- C2: for every flush of an audio-visual session (and every in-memory record
refresh by the card updater) where the engine-reported duration is positive,
if the current position is within the 2000 ms trailing margin of the end then
the record written has position 0 and finished true; and every record written
with known non-zero duration has persisted position strictly below the
duration. -/
theorem c2_flush_normalization :
    ∀ (st : VlcState) (t d : Int) (now fn : String) (r : AvTimestampData),
      d > 0 →
      (save_current_vlc_timestamp st t d now fn = some r ∨
        update_all_cards_record st t d now fn = some r) →
      (t ≥ d - 2000 → r.position = 0 ∧ r.finished = true) ∧ r.position < r.duration := by
  intro st t d now fn r hd hsave
  have hmain : ∀ (x : AvTimestampData),
      x = { position := if (decide (d > 0 ∧ t ≥ d - 2000) : Bool) then 0 else t
            duration := d, last_played := now, filename := fn
            finished := decide (d > 0 ∧ t ≥ d - 2000) } →
      (t ≥ d - 2000 → x.position = 0 ∧ x.finished = true) ∧ x.position < x.duration := by
    intro x hx
    subst hx
    cases hb : decide (d > 0 ∧ t ≥ d - 2000)
    · have hfin := of_decide_eq_false hb
      push_neg at hfin
      have hlt : t < d - 2000 := hfin hd
      simp only [hb, Bool.false_eq_true, if_false]
      refine ⟨fun ht => absurd ht (by omega), by omega⟩
    · simp only [hb, if_true]
      exact ⟨fun _ => ⟨by simp, by simp⟩, by simpa using hd⟩
  rcases hsave with hsave | hsave
  · unfold save_current_vlc_timestamp at hsave
    split at hsave
    · exact hmain r (Option.some.inj hsave).symm
    · exact absurd hsave (by simp)
  · unfold update_all_cards_record at hsave
    split at hsave
    · exact hmain r (Option.some.inj hsave).symm
    · exact absurd hsave (by simp)

/-- Witness for C2 at the flush site: state Playing, position 119500 ms,
duration 120000 ms (within the trailing margin). -/
theorem c2_flush_normalization_witness :
    let r : AvTimestampData :=
      { position := 0, duration := 120000, last_played := "t", filename := "a.mp4"
        finished := true }
    ((119500 : Int) ≥ 120000 - 2000 → r.position = 0 ∧ r.finished = true) ∧
      r.position < r.duration :=
  c2_flush_normalization VlcState.playing 119500 120000 "t" "a.mp4" _
    (by decide) (Or.inl (by decide))

/-- Raw progress record as stored in timestamps.json: a JSON object whose
fields are present or absent depending on which code path wrote it
(audio-visual flushes write position/duration/last_played/filename/finished;
the paged-document paths write last_opened/filename on open and
pdf_page/pdf_zoom on teardown). Field presence is modelled by Option. -/
structure RawRecord where
  position : Option Int := none
  duration : Option Int := none
  last_played : Option String := none
  last_opened : Option String := none
  filename : Option String := none
  finished : Option Bool := none
  pdf_page : Option Int := none
  pdf_zoom : Option ℚ := none
deriving DecidableEq, Repr

/-- In-memory timestamps mapping: resource identity string to raw record,
in insertion order (a Python dict). -/
def Store : Type := List (String × RawRecord)

/-- Seek command issued (or not) to the engine during state restoration. -/
inductive SeekAction where
  | noSeek
  | seekTo (ms : Int)
deriving DecidableEq, Repr

/-- Bounded duration-polling loop of _restore_vlc_state (src/main.py lines
830-843): poll get_length at most fuel times (the source uses 30 attempts of
100 ms each); stop early on a positive reading; when every allowed attempt
reads non-positive, the last reading is kept. readings i is the value the
engine reports at the i-th poll. -/
def poll_for_duration (readings : Nat → Int) : Nat → Nat → Int
  | _, 0 => 0
  | i, fuel + 1 =>
    if readings i > 0 then readings i
    else if fuel = 0 then readings i
    else poll_for_duration readings (i + 1) fuel

/-- Position-restoration logic of _restore_vlc_state (src/main.py lines
823-883): wait (boundedly) for a duration, look the media key up in the
timestamps mapping, and seek to the saved position only when
0 < position < duration; a saved position of 0 or less leaves playback at the
start, and a saved position at or past the duration (or a positive position
with unknown duration) seeks to 0. -/
def restore_vlc_state (readings : Nat → Int) (timestamps : Store)
    (media_key : String) : SeekAction :=
  let duration := poll_for_duration readings 0 30
  match (timestamps.lookup media_key).bind RawRecord.position with
  | none => SeekAction.noSeek
  | some saved_time_ms =>
    if duration > 0 ∧ 0 < saved_time_ms ∧ saved_time_ms < duration then
      SeekAction.seekTo saved_time_ms
    else if saved_time_ms ≤ 0 then
      SeekAction.noSeek
    else
      SeekAction.seekTo 0

theorem poll_for_duration_le_zero (readings : Nat → Int) :
    ∀ (fuel i : Nat), (∀ j, j < i + fuel → readings j ≤ 0) →
      poll_for_duration readings i fuel ≤ 0 := by
  intro fuel
  induction fuel with
  | zero => intro i _; simp [poll_for_duration]
  | succ n ih =>
    intro i h
    have hri : readings i ≤ 0 := h i (by omega)
    rw [poll_for_duration, if_neg (by omega)]
    by_cases hn : n = 0
    · subst hn; rw [if_pos rfl]; exact hri
    · rw [if_neg hn]; exact ih (i + 1) (fun j hj => h j (by omega))

theorem poll_for_duration_congr (readings readings2 : Nat → Int) :
    ∀ (fuel i : Nat), (∀ j, j < i + fuel → readings j = readings2 j) →
      poll_for_duration readings i fuel = poll_for_duration readings2 i fuel := by
  intro fuel
  induction fuel with
  | zero => intro i _; rfl
  | succ n ih =>
    intro i h
    have hri : readings i = readings2 i := h i (by omega)
    rw [poll_for_duration, poll_for_duration, hri]
    by_cases hpos : readings2 i > 0
    · rw [if_pos hpos, if_pos hpos]
    · rw [if_neg hpos, if_neg hpos]
      by_cases hn : n = 0
      · rw [if_pos hn, if_pos hn]
      · rw [if_neg hn, if_neg hn]
        exact ih (i + 1) (fun j hj => h j (by omega))

theorem restore_vlc_state_eq (readings : Nat → Int) (ts : Store) (key : String)
    (pos : Int) (hpos : (ts.lookup key).bind RawRecord.position = some pos) :
    restore_vlc_state readings ts key =
      (if poll_for_duration readings 0 30 > 0 ∧ 0 < pos ∧
          pos < poll_for_duration readings 0 30 then SeekAction.seekTo pos
       else if pos ≤ 0 then SeekAction.noSeek
       else SeekAction.seekTo 0) := by
  unfold restore_vlc_state
  rw [hpos]

/-- C6: for a stored record with saved position pos, the restore step seeks to
pos exactly when 0 < pos < duration (duration known positive); a saved
position of 0 or less issues no seek, and a positive saved position at or
beyond the known duration (or with no usable duration) starts from the
beginning; the duration wait inspects at most the first 30 polls (about 3
seconds at 100 ms apiece), so it never blocks indefinitely, and when every
poll reports a non-positive duration the saved position is not restored. -/
theorem c6_resume_restoration :
    ∀ (readings : Nat → Int) (ts : Store) (key : String) (pos : Int),
      (ts.lookup key).bind RawRecord.position = some pos →
      (poll_for_duration readings 0 30 > 0 → 0 < pos →
        pos < poll_for_duration readings 0 30 →
        restore_vlc_state readings ts key = SeekAction.seekTo pos) ∧
      (pos ≤ 0 → restore_vlc_state readings ts key = SeekAction.noSeek) ∧
      (0 < pos → pos ≥ poll_for_duration readings 0 30 →
        restore_vlc_state readings ts key = SeekAction.seekTo 0) ∧
      (∀ readings2 : Nat → Int, (∀ i, i < 30 → readings i = readings2 i) →
        poll_for_duration readings 0 30 = poll_for_duration readings2 0 30) ∧
      ((∀ i, i < 30 → readings i ≤ 0) → 0 < pos →
        restore_vlc_state readings ts key = SeekAction.seekTo 0) := by
  intro readings ts key pos hpos
  have hre := restore_vlc_state_eq readings ts key pos hpos
  refine ⟨?_, ?_, ?_, ?_, ?_⟩
  · intro hd hp hlt
    rw [hre, if_pos ⟨hd, hp, hlt⟩]
  · intro hle
    rw [hre, if_neg (by rintro ⟨_, hp, _⟩; omega), if_pos hle]
  · intro hp hge
    rw [hre, if_neg (by rintro ⟨_, _, hlt⟩; omega), if_neg (by omega)]
  · intro readings2 h
    exact poll_for_duration_congr readings readings2 30 0 (fun j hj => h j (by omega))
  · intro hall hp
    have hdle : poll_for_duration readings 0 30 ≤ 0 :=
      poll_for_duration_le_zero readings 30 0 (fun j hj => hall j (by omega))
    rw [hre, if_neg (by rintro ⟨hd, _, _⟩; omega), if_neg (by omega)]

/-- Witness for C6: a record with position 30000 for a.mp4 and an engine
reporting duration 120000 on every poll. -/
theorem c6_resume_restoration_witness :
    let readings : Nat → Int := fun _ => 120000
    let ts : Store := [("a.mp4", { position := some 30000 })]
    (poll_for_duration readings 0 30 > 0 → 0 < (30000 : Int) →
      (30000 : Int) < poll_for_duration readings 0 30 →
      restore_vlc_state readings ts "a.mp4" = SeekAction.seekTo 30000) ∧
    ((30000 : Int) ≤ 0 → restore_vlc_state readings ts "a.mp4" = SeekAction.noSeek) ∧
    (0 < (30000 : Int) → (30000 : Int) ≥ poll_for_duration readings 0 30 →
      restore_vlc_state readings ts "a.mp4" = SeekAction.seekTo 0) ∧
    (∀ readings2 : Nat → Int, (∀ i, i < 30 → readings i = readings2 i) →
      poll_for_duration readings 0 30 = poll_for_duration readings2 0 30) ∧
    ((∀ i, i < 30 → readings i ≤ 0) → 0 < (30000 : Int) →
      restore_vlc_state readings ts "a.mp4" = SeekAction.seekTo 0) :=
  c6_resume_restoration (fun _ => 120000) [("a.mp4", { position := some 30000 })]
    "a.mp4" 30000 (by decide)

/-- Seek-target computation of skip_time (src/main.py lines 1076-1096): the
skip offset is added to the current time and, when the duration is known
positive, clamped to [0, duration - 100]; with unknown duration only the lower
bound applies. -/
def skip_time (current_time duration ms_offset : Int) : Int :=
  if duration > 0 then max 0 (min (current_time + ms_offset) (duration - 100))
  else max 0 (current_time + ms_offset)

/-- Seek-target computation of on_media_slider_release (src/main.py lines
1140-1168): the slider value (a percentage in [0, 100]) is mapped to
int((value / 100.0) * duration) with no further clamping; none when the
duration is unknown (the seek is skipped). The Python int() truncation
coincides with the floor here because the operand is non-negative on the
slider's range. -/
def on_media_slider_release (value : ℚ) (duration : Int) : Option Int :=
  if duration > 0 then some (Int.floor (value / 100 * (duration : ℚ))) else none

/-- Counterexample for C7: releasing the slider at its maximum (value 100) on
media of duration 100000 ms issues a seek to exactly 100000 ms — the end of
media — so the slider-release seek target is not clamped to [0, duration). -/
theorem c7_counterexample :
    on_media_slider_release 100 100000 = some 100000 ∧ ¬((100000 : Int) < 100000) := by
  constructor
  · unfold on_media_slider_release
    rw [if_pos (by norm_num)]
    norm_num
  · omega

/-- C7 (amended): skip commands clamp the seek target to [0, duration - 100]
(hence strictly inside [0, duration), with a 100 ms trailing margin whenever
duration ≥ 100); the slider-release seek is bounded only by the slider's own
range: for value in [0, 100] the target lies in [0, duration] and can reach
duration itself exactly. -/
theorem c7_seek_clamping :
    ∀ (t d off : Int) (v : ℚ),
      d > 0 →
      (0 ≤ skip_time t d off ∧ skip_time t d off < d ∧
        skip_time t d off ≤ max 0 (d - 100)) ∧
      (0 ≤ v → v ≤ 100 →
        ∃ target, on_media_slider_release v d = some target ∧
          0 ≤ target ∧ target ≤ d) := by
  intro t d off v hd
  constructor
  · unfold skip_time
    rw [if_pos hd]
    omega
  · intro hv0 hv100
    refine ⟨Int.floor (v / 100 * (d : ℚ)), ?_, ?_, ?_⟩
    · unfold on_media_slider_release
      rw [if_pos hd]
    · have hprod : (0 : ℚ) ≤ v / 100 * (d : ℚ) := by positivity
      exact Int.floor_nonneg.mpr hprod
    · have hdq : (0 : ℚ) ≤ (d : ℚ) := by exact_mod_cast le_of_lt hd
      have hle : v / 100 * (d : ℚ) ≤ (d : ℚ) := by
        have h1 : v / 100 ≤ 1 := by linarith
        calc v / 100 * (d : ℚ) ≤ 1 * (d : ℚ) := mul_le_mul_of_nonneg_right h1 hdq
          _ = (d : ℚ) := one_mul _
      calc Int.floor (v / 100 * (d : ℚ)) ≤ Int.floor ((d : ℚ)) := Int.floor_le_floor hle
        _ = d := Int.floor_intCast d

/-- Witness for amended C7: skip +5000 ms at position 0 of a 100000 ms medium,
and slider release at 50 percent. -/
theorem c7_seek_clamping_witness :
    (0 ≤ skip_time 0 100000 5000 ∧ skip_time 0 100000 5000 < 100000 ∧
      skip_time 0 100000 5000 ≤ max 0 (100000 - 100)) ∧
    ((0 : ℚ) ≤ 50 → (50 : ℚ) ≤ 100 →
      ∃ target, on_media_slider_release 50 100000 = some target ∧
        0 ≤ target ∧ target ≤ 100000) :=
  c7_seek_clamping 0 100000 5000 50 (by norm_num)

/-- Model of the Python format expression
f-string rate with two decimals followed by the replace chain in
change_playback_speed (src/main.py line 1112). On the rates that arise here
(non-negative multiples of 1/100) the two-decimal formatting is exact, so no
rounding-mode modelling is needed. -/
def format_two_decimals (r : ℚ) : String :=
  let c : Int := Int.floor (r * 100)
  let whole := c / 100
  let frac := c % 100
  toString whole ++ "." ++ (if frac < 10 then "0" ++ toString frac else toString frac)

/-- Display string written back into the speed selector when set_rate fails:
two-decimal formatting plus the source's literal replace chain. -/
def format_rate (r : ℚ) : String :=
  ((((format_two_decimals r ++ "x").replace ".00x" "x").replace ".50x"
    ".5x").replace ".25x" ".25x").replace ".75x" ".75x"

/-- Outcome of a rate-change command: the set_rate invocation issued to the
engine (if any) and the string left in the speed selector variable. -/
structure SpeedChangeResult where
  rate_call : Option ℚ
  displayed : String
deriving DecidableEq, Repr

/-- Core of change_playback_speed (src/main.py lines 1098-1120). The speed
menu has already written the newly selected string into the selector variable
before this callback runs, so selected is both the parsed rate's display
string and the selector content on entry. set_rate is invoked only when the
engine state is Playing or Paused; when the engine rejects the call
(set_rate_ok false) the selector is rewritten with the engine's current rate;
when the state gate rejects, nothing is changed (the selector keeps the new
selection). -/
def change_playback_speed (state : VlcState) (speed_value : ℚ) (set_rate_ok : Bool)
    (engine_rate : ℚ) (selected : String) : SpeedChangeResult :=
  if state = VlcState.playing ∨ state = VlcState.paused then
    if set_rate_ok then
      { rate_call := some speed_value, displayed := selected }
    else
      { rate_call := some speed_value, displayed := format_rate engine_rate }
  else
    { rate_call := none, displayed := selected }

/-- Counterexample for C9: with the player Stopped, the previously selected
rate 1.0x and a newly selected 2.0x, the rejected change leaves "2.0x" — the
new selection, not the previous one — displayed in the selector. -/
theorem c9_counterexample :
    (change_playback_speed VlcState.stopped 2 true 1 "2.0x").rate_call = none ∧
    (change_playback_speed VlcState.stopped 2 true 1 "2.0x").displayed = "2.0x" ∧
    "2.0x" ≠ "1.0x" := by
  refine ⟨?_, ?_, by decide⟩ <;>
    simp [change_playback_speed]

/-- C9 (amended): the rate is passed to the engine only while the engine
reports Playing or Paused; in any other state the command is a no-op on the
engine and the newly selected rate stays displayed; while Playing or Paused,
a successful set_rate keeps the selection displayed, and a failed set_rate
rewrites the selector with the engine's reported current rate. -/
theorem c9_rate_change_gate :
    ∀ (st : VlcState) (v : ℚ) (ok : Bool) (er : ℚ) (sel : String),
      ((change_playback_speed st v ok er sel).rate_call ≠ none ↔
        (st = VlcState.playing ∨ st = VlcState.paused)) ∧
      (¬(st = VlcState.playing ∨ st = VlcState.paused) →
        change_playback_speed st v ok er sel =
          { rate_call := none, displayed := sel }) ∧
      ((st = VlcState.playing ∨ st = VlcState.paused) → ok = true →
        change_playback_speed st v ok er sel =
          { rate_call := some v, displayed := sel }) ∧
      ((st = VlcState.playing ∨ st = VlcState.paused) → ok = false →
        change_playback_speed st v ok er sel =
          { rate_call := some v, displayed := format_rate er }) := by
  intro st v ok er sel
  by_cases hst : st = VlcState.playing ∨ st = VlcState.paused
  · cases ok <;> simp [change_playback_speed, hst]
  · cases ok <;> simp [change_playback_speed, hst]

/-- Witness for amended C9: Paused state, rate 1.5 accepted by the engine —
the call reaches the engine and the selection stays displayed. -/
theorem c9_rate_change_gate_witness :
    change_playback_speed VlcState.paused (3/2) true 1 "1.5x" =
      { rate_call := some (3/2), displayed := "1.5x" } :=
  (c9_rate_change_gate VlcState.paused (3/2) true 1 "1.5x").2.2.1 (Or.inr rfl) rfl


/-- Fixed ascending zoom multipliers (PDF_ZOOM_STEPS, src/main.py line 26). -/
def PDF_ZOOM_STEPS : List ℚ :=
  [1/2, 3/4, 1, 5/4, 3/2, 7/4, 2, 5/2, 3, 4]

/-- Python list.index: position of the first element equal to z, none when z
is not in the list (the ValueError case). -/
def list_index (z : ℚ) : List ℚ → Option Nat
  | [] => none
  | a :: rest => if a = z then some 0 else (list_index z rest).map (· + 1)

/-- Forward scan of the ValueError branch of pdf_zoom_in: the first step
strictly greater than z. -/
def first_step_above (z : ℚ) : List ℚ → Option ℚ
  | [] => none
  | a :: rest => if z < a then some a else first_step_above z rest

/-- Reverse scan of the ValueError branch of pdf_zoom_out: walking the given
list in order, the first step strictly smaller than z (the caller passes the
step list reversed). -/
def first_step_below (z : ℚ) : List ℚ → Option ℚ
  | [] => none
  | a :: rest => if a < z then some a else first_step_below z rest

/-- Active paged-document session variables (pdf_page_count,
pdf_current_page_index, pdf_zoom_level of DigitalLibrary). -/
structure PdfSession where
  page_count : Nat
  current_page : Nat
  zoom : ℚ
deriving DecidableEq, Repr

/-- pdf_next_page (src/main.py lines 1234-1239): advance one page only while
strictly below the last index; a no-op on the last page. -/
def pdf_next_page (s : PdfSession) : PdfSession :=
  if s.current_page < s.page_count - 1 then
    { s with current_page := s.current_page + 1 }
  else s

/-- pdf_previous_page (src/main.py lines 1241-1246): go back one page only
while strictly above index 0; a no-op on the first page. -/
def pdf_previous_page (s : PdfSession) : PdfSession :=
  if 0 < s.current_page then
    { s with current_page := s.current_page - 1 }
  else s

/-- pdf_zoom_in (src/main.py lines 1248-1267): when the current zoom is a
listed step, move to the next step unless already at the last one; when it is
not listed (the ValueError branch), move to the first step strictly greater,
or stay put at or above the maximum. -/
def pdf_zoom_in (z : ℚ) : ℚ :=
  match list_index z PDF_ZOOM_STEPS with
  | some i =>
    if i < PDF_ZOOM_STEPS.length - 1 then PDF_ZOOM_STEPS.getD (i + 1) z else z
  | none =>
    match first_step_above z PDF_ZOOM_STEPS with
    | some step => step
    | none => z

/-- pdf_zoom_out (src/main.py lines 1270-1289): when the current zoom is a
listed step, move to the previous step unless already at the first one; when
it is not listed, move to the closest step strictly smaller (scanning the
list in reverse), or stay put at or below the minimum. -/
def pdf_zoom_out (z : ℚ) : ℚ :=
  match list_index z PDF_ZOOM_STEPS with
  | some i =>
    if 0 < i then PDF_ZOOM_STEPS.getD (i - 1) z else z
  | none =>
    match first_step_below z PDF_ZOOM_STEPS.reverse with
    | some step => step
    | none => z

theorem pdf_zoom_in_mem (z : ℚ) (hz : z ∈ PDF_ZOOM_STEPS) :
    pdf_zoom_in z ∈ PDF_ZOOM_STEPS := by
  fin_cases hz <;> norm_num [pdf_zoom_in, list_index, PDF_ZOOM_STEPS]

theorem pdf_zoom_out_mem (z : ℚ) (hz : z ∈ PDF_ZOOM_STEPS) :
    pdf_zoom_out z ∈ PDF_ZOOM_STEPS := by
  fin_cases hz <;> norm_num [pdf_zoom_out, list_index, PDF_ZOOM_STEPS]

theorem pdf_zoom_in_iter_mem (n : Nat) (z : ℚ) (hz : z ∈ PDF_ZOOM_STEPS) :
    pdf_zoom_in^[n] z ∈ PDF_ZOOM_STEPS := by
  induction n generalizing z with
  | zero => simpa using hz
  | succ m ih =>
    rw [Function.iterate_succ_apply]
    exact ih _ (pdf_zoom_in_mem z hz)

theorem pdf_zoom_out_iter_mem (n : Nat) (z : ℚ) (hz : z ∈ PDF_ZOOM_STEPS) :
    pdf_zoom_out^[n] z ∈ PDF_ZOOM_STEPS := by
  induction n generalizing z with
  | zero => simpa using hz
  | succ m ih =>
    rw [Function.iterate_succ_apply]
    exact ih _ (pdf_zoom_out_mem z hz)

theorem pdf_next_page_count (s : PdfSession) :
    (pdf_next_page s).page_count = s.page_count := by
  unfold pdf_next_page
  split <;> rfl

theorem pdf_previous_page_count (s : PdfSession) :
    (pdf_previous_page s).page_count = s.page_count := by
  unfold pdf_previous_page
  split <;> rfl

theorem pdf_next_page_lt (s : PdfSession) (h : s.current_page < s.page_count) :
    (pdf_next_page s).current_page < s.page_count := by
  unfold pdf_next_page
  split
  · rename_i hlt
    show s.current_page + 1 < s.page_count
    omega
  · exact h

theorem pdf_previous_page_lt (s : PdfSession) (h : s.current_page < s.page_count) :
    (pdf_previous_page s).current_page < s.page_count := by
  unfold pdf_previous_page
  split
  · show s.current_page - 1 < s.page_count
    omega
  · exact h

/-- C8: repeated zoom-in from any listed step (in particular the lowest, 0.5)
never leaves the step list nor exceeds the top step 4.0, and repeated
zoom-out never goes below the bottom step 0.5; next-page and previous-page
keep the page index inside [0, pageCount-1] (indices are naturals, so the
lower bound is structural) and are no-ops at the two boundaries. -/
theorem c8_page_zoom_clamp :
    ∀ (n : Nat) (z : ℚ) (s : PdfSession),
      (z ∈ PDF_ZOOM_STEPS →
        pdf_zoom_in^[n] z ≤ 4 ∧ (1/2 : ℚ) ≤ pdf_zoom_out^[n] z) ∧
      (s.current_page < s.page_count →
        (pdf_next_page^[n] s).current_page < s.page_count ∧
        (pdf_previous_page^[n] s).current_page < s.page_count) ∧
      (s.current_page = s.page_count - 1 → pdf_next_page s = s) ∧
      (s.current_page = 0 → pdf_previous_page s = s) := by
  intro n z s
  have hbound : ∀ w ∈ PDF_ZOOM_STEPS, (1/2 : ℚ) ≤ w ∧ w ≤ 4 := by
    intro w hw
    fin_cases hw <;> norm_num
  refine ⟨?_, ?_, ?_, ?_⟩
  · intro hz
    exact ⟨(hbound _ (pdf_zoom_in_iter_mem n z hz)).2,
      (hbound _ (pdf_zoom_out_iter_mem n z hz)).1⟩
  · intro hpage
    constructor
    · induction n with
      | zero => simpa using hpage
      | succ m ih =>
        rw [Function.iterate_succ_apply']
        have hcnt : (pdf_next_page^[m] s).page_count = s.page_count := by
          clear ih
          induction m with
          | zero => rfl
          | succ k ihk =>
            rw [Function.iterate_succ_apply', pdf_next_page_count, ihk]
        have := pdf_next_page_lt (pdf_next_page^[m] s) (by rw [hcnt]; exact ih)
        rwa [hcnt] at this
    · induction n with
      | zero => simpa using hpage
      | succ m ih =>
        rw [Function.iterate_succ_apply']
        have hcnt : (pdf_previous_page^[m] s).page_count = s.page_count := by
          clear ih
          induction m with
          | zero => rfl
          | succ k ihk =>
            rw [Function.iterate_succ_apply', pdf_previous_page_count, ihk]
        have := pdf_previous_page_lt (pdf_previous_page^[m] s) (by rw [hcnt]; exact ih)
        rwa [hcnt] at this
  · intro hlast
    unfold pdf_next_page
    rw [if_neg (by omega)]
  · intro hfirst
    unfold pdf_previous_page
    rw [if_neg (by omega)]

/-- Witness for C8: twenty zoom-ins from the lowest step 0.5, and page
stepping on a five-page document starting at page 3. -/
theorem c8_page_zoom_clamp_witness :
    (pdf_zoom_in^[20] (1/2 : ℚ) ≤ 4 ∧ (1/2 : ℚ) ≤ pdf_zoom_out^[20] (1/2 : ℚ)) ∧
    ((pdf_next_page^[20] ⟨5, 3, 1⟩).current_page < 5 ∧
      (pdf_previous_page^[20] ⟨5, 3, 1⟩).current_page < 5) ∧
    (pdf_next_page ⟨5, 4, 1⟩ = ⟨5, 4, 1⟩) ∧
    (pdf_previous_page ⟨5, 0, 1⟩ = ⟨5, 0, 1⟩) := by
  have h1 := (c8_page_zoom_clamp 20 (1/2) ⟨5, 3, 1⟩).1 (by norm_num [PDF_ZOOM_STEPS])
  have h2 := (c8_page_zoom_clamp 20 (1/2) ⟨5, 3, 1⟩).2.1 (by norm_num)
  have h3 := (c8_page_zoom_clamp 20 (1/2) ⟨5, 4, 1⟩).2.2.1 (by norm_num)
  have h4 := (c8_page_zoom_clamp 20 (1/2) ⟨5, 0, 1⟩).2.2.2 (by norm_num)
  exact ⟨h1, h2, h3, h4⟩

/-- Python dict update ts[key] mutation: modify the record in place when the
key is present, append a fresh entry (from an empty record) otherwise, as
dict insertion order does. -/
def store_update : Store → String → (RawRecord → RawRecord) → Store
  | [], key, f => [(key, f {})]
  | (k, r) :: rest, key, f =>
    if k = key then (k, f r) :: rest else (k, r) :: store_update rest key f

theorem store_update_lookup_self (ts : Store) (key : String)
    (f : RawRecord → RawRecord) :
    (store_update ts key f).lookup key = some (f (((ts.lookup key)).getD {})) := by
  induction ts with
  | nil => simp [store_update, List.lookup]
  | cons p rest ih =>
    obtain ⟨k, r⟩ := p
    by_cases hk : k = key
    · subst hk
      simp [store_update, List.lookup]
    · have hbeq : (key == k) = false := by
        simpa [beq_iff_eq] using Ne.symm hk
      simp only [store_update, if_neg hk, List.lookup, hbeq]
      exact ih

/-- Result of selecting a paged document (load_pdf_media). timestamps is the
in-memory mapping afterwards; persisted is the mapping handed to
save_timestamps during the call (the source saves immediately after stamping
last_opened); session is the resulting active paged-document session, none
when the selection was rejected. -/
structure LoadPdfResult where
  timestamps : Store
  persisted : Option Store
  session : Option PdfSession
  error_shown : Bool

/-- load_pdf_media (src/main.py lines 886-931): open the document, reset the
page index to 0 and the zoom to 1.0, stamp last_opened and filename into the
timestamps mapping and persist it immediately, then either show the document
(positive page count) or report an error, close the document and leave no
active session (page count 0). No field of any stored record is read: the
stored pdf_page / pdf_zoom are never consulted. -/
def load_pdf_media (page_count : Nat) (ts : Store) (key now fname : String) :
    LoadPdfResult :=
  let ts1 := store_update ts key
    (fun r => { r with last_opened := some now, filename := some fname })
  if 0 < page_count then
    { timestamps := ts1, persisted := some ts1
      session := some { page_count := page_count, current_page := 0, zoom := 1 }
      error_shown := false }
  else
    { timestamps := ts1, persisted := some ts1, session := none, error_shown := true }

/-- Paged-document teardown write of stop_and_save_current_media (src/main.py
lines 962-970): when the key already has an entry, pdf_page and pdf_zoom are
written into it and the store is persisted; the boolean reports whether
save_timestamps was called. -/
def stop_and_save_pdf_store (ts : Store) (key : String) (page : Nat) (zoom : ℚ) :
    Store × Bool :=
  if (ts.lookup key).isSome then
    (store_update ts key
      (fun r => { r with pdf_page := some (page : Int), pdf_zoom := some zoom }), true)
  else (ts, false)

/-- Counterexample for C1: b.pdf has a stored record with pdf_page 3 and
pdf_zoom 2.0, yet selecting it yields a session at page 0 and zoom 1.0 — the
stored page and zoom are not restored. -/
theorem c1_counterexample :
    (load_pdf_media 5 [("b.pdf", { pdf_page := some 3, pdf_zoom := some 2 })]
        "b.pdf" "t" "b.pdf").session =
      some { page_count := 5, current_page := 0, zoom := 1 } ∧
    ¬(∃ s, (load_pdf_media 5 [("b.pdf", { pdf_page := some 3, pdf_zoom := some 2 })]
        "b.pdf" "t" "b.pdf").session = some s ∧ s.current_page = 3 ∧ s.zoom = 2) := by
  constructor
  · rfl
  · rintro ⟨s, hs, hpage, -⟩
    have : s = { page_count := 5, current_page := 0, zoom := 1 } := by
      have h0 : (load_pdf_media 5 [("b.pdf", { pdf_page := some 3, pdf_zoom := some 2 })]
          "b.pdf" "t" "b.pdf").session =
        some { page_count := 5, current_page := 0, zoom := 1 } := rfl
      rw [h0] at hs
      exact (Option.some.inj hs).symm
    subst this
    simp at hpage

/-- C1 (amended): selecting a paged document never restores a stored page or
zoom: for every positive page count the new session starts at page 0 and zoom
1.0 whether or not a record exists, and the stored pdf_page and pdf_zoom
fields (written only at teardown) pass through the selection unread and
unchanged. -/
theorem c1_pdf_selection_resets :
    ∀ (pc : Nat) (ts : Store) (key now fname : String),
      0 < pc →
      (load_pdf_media pc ts key now fname).session =
        some { page_count := pc, current_page := 0, zoom := 1 } ∧
      ((load_pdf_media pc ts key now fname).timestamps.lookup key).bind
          RawRecord.pdf_page = (ts.lookup key).bind RawRecord.pdf_page ∧
      ((load_pdf_media pc ts key now fname).timestamps.lookup key).bind
          RawRecord.pdf_zoom = (ts.lookup key).bind RawRecord.pdf_zoom := by
  intro pc ts key now fname hpc
  have hts : (load_pdf_media pc ts key now fname).timestamps =
      store_update ts key
        (fun r => { r with last_opened := some now, filename := some fname }) := by
    unfold load_pdf_media
    rw [if_pos hpc]
  refine ⟨?_, ?_, ?_⟩
  · unfold load_pdf_media
    rw [if_pos hpc]
  · rw [hts, store_update_lookup_self]
    cases h : ts.lookup key <;> simp [h]
  · rw [hts, store_update_lookup_self]
    cases h : ts.lookup key <;> simp [h]

/-- Witness for amended C1: selecting b.pdf (5 pages) with a stored record
carrying pdf_page 3 and pdf_zoom 2.0. -/
theorem c1_pdf_selection_resets_witness :
    (load_pdf_media 5 [("b.pdf", { pdf_page := some 3, pdf_zoom := some 2 })]
        "b.pdf" "t2" "b.pdf").session =
      some { page_count := 5, current_page := 0, zoom := 1 } ∧
    ((load_pdf_media 5 [("b.pdf", { pdf_page := some 3, pdf_zoom := some 2 })]
        "b.pdf" "t2" "b.pdf").timestamps.lookup "b.pdf").bind RawRecord.pdf_page =
      (([("b.pdf", { pdf_page := some 3, pdf_zoom := some 2 })] : Store).lookup
        "b.pdf").bind RawRecord.pdf_page ∧
    ((load_pdf_media 5 [("b.pdf", { pdf_page := some 3, pdf_zoom := some 2 })]
        "b.pdf" "t2" "b.pdf").timestamps.lookup "b.pdf").bind RawRecord.pdf_zoom =
      (([("b.pdf", { pdf_page := some 3, pdf_zoom := some 2 })] : Store).lookup
        "b.pdf").bind RawRecord.pdf_zoom :=
  c1_pdf_selection_resets 5 [("b.pdf", { pdf_page := some 3, pdf_zoom := some 2 })]
    "b.pdf" "t2" "b.pdf" (by norm_num)

/-- C10: selecting a paged document whose engine reports zero pages is
rejected — an error is shown and no session is active — but the timestamps
mapping was already stamped with a last_opened entry for that document and
persisted before the page-count check, so the store gains an entry for a
document that was never viewable. -/
theorem c10_empty_pdf_store_pollution :
    ∀ (ts : Store) (key now fname : String),
      (load_pdf_media 0 ts key now fname).session = none ∧
      (load_pdf_media 0 ts key now fname).error_shown = true ∧
      (load_pdf_media 0 ts key now fname).persisted =
        some (load_pdf_media 0 ts key now fname).timestamps ∧
      ((load_pdf_media 0 ts key now fname).timestamps.lookup key).bind
        RawRecord.last_opened = some now := by
  intro ts key now fname
  refine ⟨rfl, rfl, rfl, ?_⟩
  show ((store_update ts key _).lookup key).bind RawRecord.last_opened = some now
  rw [store_update_lookup_self]
  rfl

/-- Witness for C10: an empty store and the empty document empty.pdf. -/
theorem c10_empty_pdf_store_pollution_witness :
    (load_pdf_media 0 [] "empty.pdf" "t3" "empty.pdf").session = none ∧
    (load_pdf_media 0 [] "empty.pdf" "t3" "empty.pdf").error_shown = true ∧
    (load_pdf_media 0 [] "empty.pdf" "t3" "empty.pdf").persisted =
      some (load_pdf_media 0 [] "empty.pdf" "t3" "empty.pdf").timestamps ∧
    ((load_pdf_media 0 [] "empty.pdf" "t3" "empty.pdf").timestamps.lookup
      "empty.pdf").bind RawRecord.last_opened = some "t3" :=
  c10_empty_pdf_store_pollution [] "empty.pdf" "t3" "empty.pdf"

/-- JSON scalar values appearing in timestamps.json: Python ints, floats,
strings and booleans. json.dump / json.load are lossless on this tree
representation (ints and floats are distinct JSON spellings), so the file is
modelled as the parsed tree. -/
inductive JsonVal where
  | jint : Int → JsonVal
  | jfloat : ℚ → JsonVal
  | jstr : String → JsonVal
  | jbool : Bool → JsonVal
deriving DecidableEq, Repr

/-- Serialized store file: a JSON object mapping resource identity strings to
flat JSON objects of scalar fields, in insertion order. -/
def StoreFile : Type := List (String × List (String × JsonVal))

/-- Data directory as seen by the store: the timestamps.json content (none =
missing file) and the timestamps.json.tmp content (none = missing). -/
structure LibraryFS where
  timestamps_file : Option StoreFile
  temp_file : Option StoreFile

/-- State of the file system if the process is killed after k completed
micro-steps of save_timestamps (src/main.py lines 378-402): step 1 writes the
whole mapping to the temporary file, step 2 atomically renames the temporary
file over the store file (os.replace). There is no step at which the store
file holds partial content. -/
def save_timestamps_crash (data : StoreFile) (fs : LibraryFS) : Nat → LibraryFS
  | 0 => fs
  | 1 => { fs with temp_file := some data }
  | _ + 2 => { timestamps_file := some data, temp_file := none }

/-- Completed run of save_timestamps, with failure injection: raised reports
whether an exception escapes to the caller and dialog_shown whether an error
dialog is displayed (the except-handler only logs). -/
structure SaveOutcome where
  fs : LibraryFS
  raised : Bool
  dialog_shown : Bool

/-- save_timestamps (src/main.py lines 378-402) run to completion: on success
the mapping replaces the store file atomically and the temporary file is
gone; when the temp write or the rename raises, the handler logs, removes the
temporary file if present, and swallows the exception — the store file is
untouched, nothing is raised, and no dialog is shown in any branch. -/
def save_timestamps_run (write_ok rename_ok : Bool) (data : StoreFile)
    (fs : LibraryFS) : SaveOutcome :=
  if write_ok ∧ rename_ok then
    { fs := { timestamps_file := some data, temp_file := none }
      raised := false, dialog_shown := false }
  else
    { fs := { fs with temp_file := none }, raised := false, dialog_shown := false }

/-- C4: whatever the interruption point, the store file holds either the full
previous content or the full new content, never a partial write; and a failed
save leaves the store file untouched with the temporary file removed, raising
nothing to the caller and showing no dialog. -/
theorem c4_atomic_save :
    ∀ (data : StoreFile) (fs : LibraryFS) (k : Nat) (write_ok rename_ok : Bool),
      ((save_timestamps_crash data fs k).timestamps_file = fs.timestamps_file ∨
        (save_timestamps_crash data fs k).timestamps_file = some data) ∧
      (save_timestamps_run write_ok rename_ok data fs).raised = false ∧
      (save_timestamps_run write_ok rename_ok data fs).dialog_shown = false ∧
      (¬(write_ok = true ∧ rename_ok = true) →
        (save_timestamps_run write_ok rename_ok data fs).fs =
          { timestamps_file := fs.timestamps_file, temp_file := none }) ∧
      (write_ok = true → rename_ok = true →
        (save_timestamps_run write_ok rename_ok data fs).fs =
          { timestamps_file := some data, temp_file := none }) := by
  intro data fs k write_ok rename_ok
  refine ⟨?_, ?_, ?_, ?_, ?_⟩
  · match k with
    | 0 => exact Or.inl rfl
    | 1 => exact Or.inl rfl
    | _ + 2 => exact Or.inr rfl
  · cases write_ok <;> cases rename_ok <;> simp [save_timestamps_run]
  · cases write_ok <;> cases rename_ok <;> simp [save_timestamps_run]
  · intro hfail
    cases write_ok <;> cases rename_ok <;> simp_all [save_timestamps_run]
  · intro hw hr
    subst hw
    subst hr
    simp [save_timestamps_run]

/-- Witness for C4: writing a one-entry mapping over an empty data directory,
crash after the temp write (k = 1), with an injected write failure. -/
theorem c4_atomic_save_witness :
    (let data : StoreFile := [("a.mp4", [("position", JsonVal.jint 40000)])]
     let fs : LibraryFS := { timestamps_file := none, temp_file := none }
     ((save_timestamps_crash data fs 1).timestamps_file = fs.timestamps_file ∨
       (save_timestamps_crash data fs 1).timestamps_file = some data) ∧
     (save_timestamps_run false true data fs).raised = false ∧
     (save_timestamps_run false true data fs).dialog_shown = false ∧
     (¬(false = true ∧ true = true) →
       (save_timestamps_run false true data fs).fs =
         { timestamps_file := fs.timestamps_file, temp_file := none }) ∧
     (false = true → true = true →
       (save_timestamps_run false true data fs).fs =
         { timestamps_file := some data, temp_file := none })) :=
  c4_atomic_save [("a.mp4", [("position", JsonVal.jint 40000)])]
    { timestamps_file := none, temp_file := none } 1 false true

/-- load_timestamps (src/main.py lines 360-376): the parsed content of the
store file when it exists, an empty mapping when it is missing. -/
def load_timestamps (fs : LibraryFS) : StoreFile :=
  match fs.timestamps_file with
  | some content => content
  | none => []

/-- Field of a serialized record: present fields contribute one key, absent
fields contribute nothing, exactly as Python dicts hold only assigned keys. -/
def optField {α : Type} (key : String) (f : α → JsonVal) : Option α → List (String × JsonVal)
  | none => []
  | some v => [(key, f v)]

/-- Serialization of one raw record into the flat JSON object json.dump
writes for it, fields in the order the source assigns them. -/
def encodeRecord (r : RawRecord) : List (String × JsonVal) :=
  optField "position" JsonVal.jint r.position ++
  (optField "duration" JsonVal.jint r.duration ++
  (optField "last_played" JsonVal.jstr r.last_played ++
  (optField "last_opened" JsonVal.jstr r.last_opened ++
  (optField "filename" JsonVal.jstr r.filename ++
  (optField "finished" JsonVal.jbool r.finished ++
  (optField "pdf_page" JsonVal.jint r.pdf_page ++
  (optField "pdf_zoom" JsonVal.jfloat r.pdf_zoom ++ ([] : List (String × JsonVal)))))))))

def readInt (key : String) (d : List (String × JsonVal)) : Option Int :=
  match d.lookup key with
  | some (JsonVal.jint n) => some n
  | _ => none

def readFloat (key : String) (d : List (String × JsonVal)) : Option ℚ :=
  match d.lookup key with
  | some (JsonVal.jfloat q) => some q
  | _ => none

def readStr (key : String) (d : List (String × JsonVal)) : Option String :=
  match d.lookup key with
  | some (JsonVal.jstr s) => some s
  | _ => none

def readBool (key : String) (d : List (String × JsonVal)) : Option Bool :=
  match d.lookup key with
  | some (JsonVal.jbool b) => some b
  | _ => none

/-- Typed view of a parsed record object: each known field read back by
presence, mirroring how the consuming code probes keys with dict lookups. -/
def decodeRecord (d : List (String × JsonVal)) : RawRecord :=
  { position := readInt "position" d
    duration := readInt "duration" d
    last_played := readStr "last_played" d
    last_opened := readStr "last_opened" d
    filename := readStr "filename" d
    finished := readBool "finished" d
    pdf_page := readInt "pdf_page" d
    pdf_zoom := readFloat "pdf_zoom" d }

/-- Serialization of the whole mapping (the dict json.dump receives). -/
def encodeStore (ts : Store) : StoreFile :=
  ts.map (fun p => (p.1, encodeRecord p.2))

/-- Typed view of the whole parsed store file. -/
def decodeStore (sf : StoreFile) : Store :=
  sf.map (fun p => (p.1, decodeRecord p.2))

theorem lookup_optField_ne {α : Type} (key key2 : String) (f : α → JsonVal)
    (o : Option α) (rest : List (String × JsonVal)) (h : (key == key2) = false) :
    (optField key2 f o ++ rest).lookup key = rest.lookup key := by
  cases o <;> simp [optField, List.lookup, h]

theorem lookup_optField_eq {α : Type} (key : String) (f : α → JsonVal)
    (o : Option α) (rest : List (String × JsonVal)) :
    (optField key f o ++ rest).lookup key =
      (match o with
       | some v => some (f v)
       | none => rest.lookup key) := by
  cases o <;> simp [optField, List.lookup]

theorem readInt_encode_position (r : RawRecord) :
    readInt "position" (encodeRecord r) = r.position := by
  unfold readInt encodeRecord
  rw [lookup_optField_eq]
  cases r.position with
  | some v => rfl
  | none =>
    rw [lookup_optField_ne _ _ _ _ _ (by decide),
      lookup_optField_ne _ _ _ _ _ (by decide),
      lookup_optField_ne _ _ _ _ _ (by decide),
      lookup_optField_ne _ _ _ _ _ (by decide),
      lookup_optField_ne _ _ _ _ _ (by decide),
      lookup_optField_ne _ _ _ _ _ (by decide),
      lookup_optField_ne _ _ _ _ _ (by decide)]
    rfl

theorem readInt_encode_duration (r : RawRecord) :
    readInt "duration" (encodeRecord r) = r.duration := by
  unfold readInt encodeRecord
  rw [lookup_optField_ne _ _ _ _ _ (by decide),
    lookup_optField_eq]
  cases r.duration with
  | some v => rfl
  | none =>
    rw [lookup_optField_ne _ _ _ _ _ (by decide),
      lookup_optField_ne _ _ _ _ _ (by decide),
      lookup_optField_ne _ _ _ _ _ (by decide),
      lookup_optField_ne _ _ _ _ _ (by decide),
      lookup_optField_ne _ _ _ _ _ (by decide),
      lookup_optField_ne _ _ _ _ _ (by decide)]
    rfl

theorem readStr_encode_last_played (r : RawRecord) :
    readStr "last_played" (encodeRecord r) = r.last_played := by
  unfold readStr encodeRecord
  rw [lookup_optField_ne _ _ _ _ _ (by decide),
    lookup_optField_ne _ _ _ _ _ (by decide),
    lookup_optField_eq]
  cases r.last_played with
  | some v => rfl
  | none =>
    rw [lookup_optField_ne _ _ _ _ _ (by decide),
      lookup_optField_ne _ _ _ _ _ (by decide),
      lookup_optField_ne _ _ _ _ _ (by decide),
      lookup_optField_ne _ _ _ _ _ (by decide),
      lookup_optField_ne _ _ _ _ _ (by decide)]
    rfl

theorem readStr_encode_last_opened (r : RawRecord) :
    readStr "last_opened" (encodeRecord r) = r.last_opened := by
  unfold readStr encodeRecord
  rw [lookup_optField_ne _ _ _ _ _ (by decide),
    lookup_optField_ne _ _ _ _ _ (by decide),
    lookup_optField_ne _ _ _ _ _ (by decide),
    lookup_optField_eq]
  cases r.last_opened with
  | some v => rfl
  | none =>
    rw [lookup_optField_ne _ _ _ _ _ (by decide),
      lookup_optField_ne _ _ _ _ _ (by decide),
      lookup_optField_ne _ _ _ _ _ (by decide),
      lookup_optField_ne _ _ _ _ _ (by decide)]
    rfl

theorem readStr_encode_filename (r : RawRecord) :
    readStr "filename" (encodeRecord r) = r.filename := by
  unfold readStr encodeRecord
  rw [lookup_optField_ne _ _ _ _ _ (by decide),
    lookup_optField_ne _ _ _ _ _ (by decide),
    lookup_optField_ne _ _ _ _ _ (by decide),
    lookup_optField_ne _ _ _ _ _ (by decide),
    lookup_optField_eq]
  cases r.filename with
  | some v => rfl
  | none =>
    rw [lookup_optField_ne _ _ _ _ _ (by decide),
      lookup_optField_ne _ _ _ _ _ (by decide),
      lookup_optField_ne _ _ _ _ _ (by decide)]
    rfl

theorem readBool_encode_finished (r : RawRecord) :
    readBool "finished" (encodeRecord r) = r.finished := by
  unfold readBool encodeRecord
  rw [lookup_optField_ne _ _ _ _ _ (by decide),
    lookup_optField_ne _ _ _ _ _ (by decide),
    lookup_optField_ne _ _ _ _ _ (by decide),
    lookup_optField_ne _ _ _ _ _ (by decide),
    lookup_optField_ne _ _ _ _ _ (by decide),
    lookup_optField_eq]
  cases r.finished with
  | some v => rfl
  | none =>
    rw [lookup_optField_ne _ _ _ _ _ (by decide),
      lookup_optField_ne _ _ _ _ _ (by decide)]
    rfl

theorem readInt_encode_pdf_page (r : RawRecord) :
    readInt "pdf_page" (encodeRecord r) = r.pdf_page := by
  unfold readInt encodeRecord
  rw [lookup_optField_ne _ _ _ _ _ (by decide),
    lookup_optField_ne _ _ _ _ _ (by decide),
    lookup_optField_ne _ _ _ _ _ (by decide),
    lookup_optField_ne _ _ _ _ _ (by decide),
    lookup_optField_ne _ _ _ _ _ (by decide),
    lookup_optField_ne _ _ _ _ _ (by decide),
    lookup_optField_eq]
  cases r.pdf_page with
  | some v => rfl
  | none =>
    rw [lookup_optField_ne _ _ _ _ _ (by decide)]
    rfl

theorem readFloat_encode_pdf_zoom (r : RawRecord) :
    readFloat "pdf_zoom" (encodeRecord r) = r.pdf_zoom := by
  unfold readFloat encodeRecord
  rw [lookup_optField_ne _ _ _ _ _ (by decide),
    lookup_optField_ne _ _ _ _ _ (by decide),
    lookup_optField_ne _ _ _ _ _ (by decide),
    lookup_optField_ne _ _ _ _ _ (by decide),
    lookup_optField_ne _ _ _ _ _ (by decide),
    lookup_optField_ne _ _ _ _ _ (by decide),
    lookup_optField_ne _ _ _ _ _ (by decide),
    lookup_optField_eq]
  cases r.pdf_zoom with
  | some v => rfl
  | none =>
    rfl

theorem decodeRecord_encodeRecord (r : RawRecord) :
    decodeRecord (encodeRecord r) = r := by
  unfold decodeRecord
  rw [readInt_encode_position, readInt_encode_duration,
    readStr_encode_last_played, readStr_encode_last_opened,
    readStr_encode_filename, readBool_encode_finished,
    readInt_encode_pdf_page, readFloat_encode_pdf_zoom]

theorem decodeStore_encodeStore (ts : Store) :
    decodeStore (encodeStore ts) = ts := by
  induction ts with
  | nil => rfl
  | cons p rest ih =>
    obtain ⟨k, r⟩ := p
    show (k, decodeRecord (encodeRecord r)) :: decodeStore (encodeStore rest) =
      (k, r) :: rest
    rw [decodeRecord_encodeRecord, ih]

/-- C5: saving a well-formed mapping (no duplicate identities, as with any
Python dict) to the store file and loading it back yields the same mapping:
the save writes the serialized tree through the temp-then-rename sequence,
the load reads it back, and the typed view of the result equals the original
mapping. The duplicate-free hypothesis mirrors the claim's well-formedness
wording; the identity holds for every mapping value of the model. -/
theorem c5_save_load_roundtrip :
    ∀ (M : Store) (fs : LibraryFS),
      (M.map Prod.fst).Nodup →
      decodeStore (load_timestamps
        (save_timestamps_run true true (encodeStore M) fs).fs) = M := by
  intro M fs _
  show decodeStore (load_timestamps
    { timestamps_file := some (encodeStore M), temp_file := none }) = M
  show decodeStore (encodeStore M) = M
  exact decodeStore_encodeStore M

/-- Witness for C5: a two-entry mapping (an audio-visual record for a.mp4 and
a paged-document record for b.pdf) saved over an empty data directory. -/
theorem c5_save_load_roundtrip_witness :
    (let M : Store :=
      [("a.mp4", { position := some 40000, duration := some 100000,
                   last_played := some "t1", filename := some "a.mp4",
                   finished := some false }),
       ("b.pdf", { last_opened := some "t2", filename := some "b.pdf",
                   pdf_page := some 3, pdf_zoom := some 2 })]
     decodeStore (load_timestamps
       (save_timestamps_run true true (encodeStore M)
         { timestamps_file := none, temp_file := none }).fs) = M) := by
  refine c5_save_load_roundtrip _ _ ?_
  show List.Nodup ["a.mp4", "b.pdf"]
  decide

/-- Kinds of engine handles: the audio-visual media bound to the VLC player
and an open PyMuPDF document. -/
inductive HandleKind where
  | av
  | pdfDoc
deriving DecidableEq, Repr

/-- Primitive engine-facing actions performed during a selection transition,
in program order. flush is a call flushing progress into the Timestamp Store;
stopPlayer is vlc stop() on the bound media; closeDoc / openDoc are fitz
close / open; detachMedia / attachMedia are the two halves of set_media,
which releases the previously bound media while binding the new one. -/
inductive EngineAction where
  | flush (kind : HandleKind) (path : String)
  | stopPlayer (path : String)
  | closeDoc (path : String)
  | openDoc (path : String)
  | detachMedia (path : String)
  | attachMedia (path : String)
deriving DecidableEq, Repr

/-- Session-relevant mutable state of DigitalLibrary: the media bound to the
VLC player with its playback state (current_vlc_media_path), the open PDF
document (pdf_doc / current_pdf_path), and the set of keys present in the
timestamps mapping. -/
structure SessionState where
  vlc_media : Option (String × VlcState)
  pdf_doc : Option String
  store_keys : List String

/-- stop_and_save_current_media (src/main.py lines 934-989): flush and stop
the audio-visual session when Playing or Paused (stop alone from intermediate
states, nothing from Stopped / NothingSpecial / Ended); then write the page
and zoom for an open document when its key already has a store entry, and
close the document. Returns the new state and the engine actions in order. -/
def stop_and_save_current_media (s : SessionState) :
    SessionState × List EngineAction :=
  let vlcPart : Option (String × VlcState) × List EngineAction × List String :=
    match s.vlc_media with
    | some (p, st) =>
      if st = VlcState.playing ∨ st = VlcState.paused then
        (some (p, VlcState.stopped),
          [EngineAction.flush HandleKind.av p, EngineAction.stopPlayer p],
          if p ∈ s.store_keys then s.store_keys else s.store_keys ++ [p])
      else if st ≠ VlcState.stopped ∧ st ≠ VlcState.nothingSpecial ∧
          st ≠ VlcState.ended then
        (some (p, VlcState.stopped), [EngineAction.stopPlayer p], s.store_keys)
      else
        (some (p, st), [], s.store_keys)
    | none => (none, [], s.store_keys)
  let pdfActs : List EngineAction :=
    match s.pdf_doc with
    | some p =>
      (if p ∈ vlcPart.2.2 then [EngineAction.flush HandleKind.pdfDoc p] else []) ++
        [EngineAction.closeDoc p]
    | none => []
  ({ vlc_media := vlcPart.1, pdf_doc := none, store_keys := vlcPart.2.2 },
    vlcPart.2.1 ++ pdfActs)

/-- load_vlc_media engine interactions (src/main.py lines 746-821): a
defensive stop when media is still bound, then set_media, which releases the
previously bound media and binds the new one, then play. -/
def load_vlc_media_actions (s : SessionState) (path : String) :
    SessionState × List EngineAction :=
  let stopActs : List EngineAction :=
    match s.vlc_media with
    | some (p, _) => [EngineAction.stopPlayer p]
    | none => []
  let detachActs : List EngineAction :=
    match s.vlc_media with
    | some (p, _) => [EngineAction.detachMedia p]
    | none => []
  ({ vlc_media := some (path, VlcState.playing), pdf_doc := s.pdf_doc
     store_keys := s.store_keys },
    stopActs ++ detachActs ++ [EngineAction.attachMedia path])

/-- load_pdf_media engine interactions (src/main.py lines 886-931): a
defensive close of a still-open document, fitz.open of the target, the
last_opened stamp into the store, and — when the page count is zero — an
immediate close with no session left active. -/
def load_pdf_media_actions (s : SessionState) (path : String) (page_count : Nat) :
    SessionState × List EngineAction :=
  let closeActs : List EngineAction :=
    match s.pdf_doc with
    | some p => [EngineAction.closeDoc p]
    | none => []
  let keys1 := if path ∈ s.store_keys then s.store_keys else s.store_keys ++ [path]
  if 0 < page_count then
    ({ vlc_media := s.vlc_media, pdf_doc := some path, store_keys := keys1 },
      closeActs ++ [EngineAction.openDoc path])
  else
    ({ vlc_media := s.vlc_media, pdf_doc := none, store_keys := keys1 },
      closeActs ++ [EngineAction.openDoc path, EngineAction.closeDoc path])

/-- Selection targets distinguished by handle_media_click from the file
extension: audio-visual, paged document (with the page count its engine will
report), or unsupported. -/
inductive ClickTarget where
  | avResource (path : String)
  | pdfResource (path : String) (page_count : Nat)
  | unsupported (path : String)

/-- handle_media_click (src/main.py lines 721-744): always stop and save the
current media first, then dispatch on the target kind; unsupported targets
only report an error. -/
def handle_media_click (s : SessionState) (t : ClickTarget) :
    SessionState × List EngineAction :=
  let s1 := (stop_and_save_current_media s).1
  let acts1 := (stop_and_save_current_media s).2
  match t with
  | ClickTarget.avResource p =>
    ((load_vlc_media_actions s1 p).1, acts1 ++ (load_vlc_media_actions s1 p).2)
  | ClickTarget.pdfResource p pc =>
    ((load_pdf_media_actions s1 p pc).1, acts1 ++ (load_pdf_media_actions s1 p pc).2)
  | ClickTarget.unsupported _ => (s1, acts1)

/-- Sequence of selections processed in order, with the concatenated action
trace. -/
def run_clicks (s : SessionState) : List ClickTarget → SessionState × List EngineAction
  | [] => (s, [])
  | t :: rest =>
    let step := handle_media_click s t
    let next := run_clicks step.1 rest
    (next.1, step.2 ++ next.2)

/-- Change an action makes to the number of open document handles. -/
def pdf_delta : EngineAction → Int
  | EngineAction.openDoc _ => 1
  | EngineAction.closeDoc _ => -1
  | _ => 0

/-- Change an action makes to the number of media objects bound to the
player. -/
def av_delta : EngineAction → Int
  | EngineAction.attachMedia _ => 1
  | EngineAction.detachMedia _ => -1
  | _ => 0

/-- Open-handle count after a trace. -/
def run_count (delta : EngineAction → Int) (c : Int) : List EngineAction → Int
  | [] => c
  | a :: rest => run_count delta (c + delta a) rest

/-- The running open-handle count stays within [0, 1] after every single
action of the trace. -/
def counts_le_one (delta : EngineAction → Int) (c : Int) : List EngineAction → Bool
  | [] => true
  | a :: rest =>
    (decide (c + delta a ≤ 1 ∧ 0 ≤ c + delta a)) && counts_le_one delta (c + delta a) rest

/-- Number of open document handles implied by the session state. -/
def state_pdf_count (s : SessionState) : Int :=
  if s.pdf_doc.isSome then 1 else 0

/-- Number of bound media objects implied by the session state. -/
def state_av_count (s : SessionState) : Int :=
  if s.vlc_media.isSome then 1 else 0

theorem run_count_append (delta : EngineAction → Int) (c : Int)
    (l1 l2 : List EngineAction) :
    run_count delta c (l1 ++ l2) = run_count delta (run_count delta c l1) l2 := by
  induction l1 generalizing c with
  | nil => rfl
  | cons a rest ih => simp [run_count, ih]

theorem counts_le_one_append (delta : EngineAction → Int) (c : Int)
    (l1 l2 : List EngineAction) :
    counts_le_one delta c (l1 ++ l2) =
      (counts_le_one delta c l1 && counts_le_one delta (run_count delta c l1) l2) := by
  induction l1 generalizing c with
  | nil => simp [counts_le_one, run_count]
  | cons a rest ih => simp [counts_le_one, run_count, ih, Bool.and_assoc]

theorem stop_and_save_traces (s : SessionState) :
    (stop_and_save_current_media s).1.pdf_doc = none ∧
    (stop_and_save_current_media s).1.vlc_media.isSome = s.vlc_media.isSome ∧
    run_count pdf_delta (state_pdf_count s) (stop_and_save_current_media s).2 = 0 ∧
    run_count av_delta (state_av_count s) (stop_and_save_current_media s).2 =
      state_av_count s ∧
    counts_le_one pdf_delta (state_pdf_count s) (stop_and_save_current_media s).2 = true ∧
    counts_le_one av_delta (state_av_count s) (stop_and_save_current_media s).2 = true := by
  obtain ⟨vm, pd, keys⟩ := s
  rcases vm with _ | ⟨p, st⟩ <;> rcases pd with _ | q <;>
    simp only [stop_and_save_current_media, state_pdf_count, state_av_count] <;>
    split_ifs <;>
    simp_all [run_count, counts_le_one, pdf_delta, av_delta]

theorem load_vlc_traces (s : SessionState) (path : String) :
    (load_vlc_media_actions s path).1.pdf_doc = s.pdf_doc ∧
    (load_vlc_media_actions s path).1.vlc_media.isSome = true ∧
    run_count av_delta (state_av_count s) (load_vlc_media_actions s path).2 = 1 ∧
    counts_le_one av_delta (state_av_count s) (load_vlc_media_actions s path).2 = true ∧
    (∀ c : Int, run_count pdf_delta c (load_vlc_media_actions s path).2 = c) ∧
    (∀ c : Int, 0 ≤ c → c ≤ 1 →
      counts_le_one pdf_delta c (load_vlc_media_actions s path).2 = true) := by
  obtain ⟨vm, pd, keys⟩ := s
  rcases vm with _ | ⟨p, st⟩ <;>
    simp [load_vlc_media_actions, state_av_count, run_count, counts_le_one,
      pdf_delta, av_delta] <;>
    intro c h0 h1 <;> omega

theorem load_pdf_traces (s : SessionState) (path : String) (pc : Nat)
    (h : s.pdf_doc = none) :
    (load_pdf_media_actions s path pc).1.vlc_media = s.vlc_media ∧
    run_count pdf_delta 0 (load_pdf_media_actions s path pc).2 =
      state_pdf_count (load_pdf_media_actions s path pc).1 ∧
    counts_le_one pdf_delta 0 (load_pdf_media_actions s path pc).2 = true ∧
    (∀ c : Int, run_count av_delta c (load_pdf_media_actions s path pc).2 = c) ∧
    (∀ c : Int, 0 ≤ c → c ≤ 1 →
      counts_le_one av_delta c (load_pdf_media_actions s path pc).2 = true) := by
  obtain ⟨vm, pd, keys⟩ := s
  cases h
  by_cases hpc : 0 < pc <;>
    simp [load_pdf_media_actions, hpc, state_pdf_count, run_count, counts_le_one,
      pdf_delta, av_delta] <;>
    intro c h0 h1 <;> omega

theorem handle_media_click_counts (s : SessionState) (t : ClickTarget) :
    counts_le_one pdf_delta (state_pdf_count s) (handle_media_click s t).2 = true ∧
    counts_le_one av_delta (state_av_count s) (handle_media_click s t).2 = true ∧
    run_count pdf_delta (state_pdf_count s) (handle_media_click s t).2 =
      state_pdf_count (handle_media_click s t).1 ∧
    run_count av_delta (state_av_count s) (handle_media_click s t).2 =
      state_av_count (handle_media_click s t).1 := by
  obtain ⟨hpd, hvm, hrunp, hruna, hcntp, hcnta⟩ := stop_and_save_traces s
  have hs1a : state_av_count (stop_and_save_current_media s).1 = state_av_count s := by
    unfold state_av_count
    rw [hvm]
  have hb : (0 : Int) ≤ state_av_count s ∧ state_av_count s ≤ 1 := by
    unfold state_av_count
    split <;> omega
  cases t with
  | avResource p =>
    obtain ⟨lpd, lvm, lruna, lcnta, lrunp, lcntp⟩ :=
      load_vlc_traces (stop_and_save_current_media s).1 p
    have htr : (handle_media_click s (ClickTarget.avResource p)).2 =
        (stop_and_save_current_media s).2 ++
          (load_vlc_media_actions (stop_and_save_current_media s).1 p).2 := rfl
    have hst : (handle_media_click s (ClickTarget.avResource p)).1 =
        (load_vlc_media_actions (stop_and_save_current_media s).1 p).1 := rfl
    rw [htr, hst, counts_le_one_append, counts_le_one_append, run_count_append,
      run_count_append, hrunp, hruna]
    refine ⟨?_, ?_, ?_, ?_⟩
    · rw [hcntp, lcntp 0 (by omega) (by omega)]
      rfl
    · rw [hcnta, ← hs1a, lcnta]
      rfl
    · rw [lrunp]
      unfold state_pdf_count
      rw [lpd, hpd]
      rfl
    · rw [← hs1a, lruna]
      unfold state_av_count
      rw [lvm]
      rfl
  | pdfResource p pc =>
    obtain ⟨lvm, lrunp, lcntp, lruna, lcnta⟩ :=
      load_pdf_traces (stop_and_save_current_media s).1 p pc hpd
    have htr : (handle_media_click s (ClickTarget.pdfResource p pc)).2 =
        (stop_and_save_current_media s).2 ++
          (load_pdf_media_actions (stop_and_save_current_media s).1 p pc).2 := rfl
    have hst : (handle_media_click s (ClickTarget.pdfResource p pc)).1 =
        (load_pdf_media_actions (stop_and_save_current_media s).1 p pc).1 := rfl
    rw [htr, hst, counts_le_one_append, counts_le_one_append, run_count_append,
      run_count_append, hrunp, hruna]
    refine ⟨?_, ?_, ?_, ?_⟩
    · rw [hcntp, lcntp]
      rfl
    · rw [hcnta, lcnta (state_av_count s) hb.1 hb.2]
      rfl
    · exact lrunp
    · rw [lruna]
      unfold state_av_count
      rw [lvm, hvm]
  | unsupported p =>
    have htr : (handle_media_click s (ClickTarget.unsupported p)).2 =
        (stop_and_save_current_media s).2 := rfl
    have hst : (handle_media_click s (ClickTarget.unsupported p)).1 =
        (stop_and_save_current_media s).1 := rfl
    rw [htr, hst, hrunp, hruna]
    refine ⟨hcntp, hcnta, ?_, hs1a.symm⟩
    unfold state_pdf_count
    rw [hpd]
    rfl

theorem run_clicks_counts (s : SessionState) (ts : List ClickTarget) :
    counts_le_one pdf_delta (state_pdf_count s) (run_clicks s ts).2 = true ∧
    counts_le_one av_delta (state_av_count s) (run_clicks s ts).2 = true := by
  induction ts generalizing s with
  | nil => exact ⟨rfl, rfl⟩
  | cons t rest ih =>
    obtain ⟨hc1, hc2, hr1, hr2⟩ := handle_media_click_counts s t
    have htr : (run_clicks s (t :: rest)).2 =
        (handle_media_click s t).2 ++
          (run_clicks (handle_media_click s t).1 rest).2 := rfl
    obtain ⟨ih1, ih2⟩ := ih (handle_media_click s t).1
    rw [htr, counts_le_one_append, counts_le_one_append, hr1, hr2]
    rw [hc1, hc2, ih1, ih2]
    exact ⟨rfl, rfl⟩

/-- Action a occurs strictly before action b in the trace l. -/
def before (a b : EngineAction) (l : List EngineAction) : Prop :=
  ∃ l1 l2 l3, l = l1 ++ a :: (l2 ++ b :: l3)

theorem stop_trace_pdf_shape (s : SessionState) (p : String)
    (hp : s.pdf_doc = some p) (hk : p ∈ s.store_keys) :
    ∃ va, (stop_and_save_current_media s).2 =
      va ++ [EngineAction.flush HandleKind.pdfDoc p, EngineAction.closeDoc p] := by
  obtain ⟨vm, pd, keys⟩ := s
  simp only at hp hk
  subst hp
  rcases vm with _ | ⟨pv, st⟩
  · exact ⟨[], by simp [stop_and_save_current_media, hk]⟩
  · by_cases h1 : st = VlcState.playing ∨ st = VlcState.paused
    · have hk2 : p ∈ (if pv ∈ keys then keys else keys ++ [pv]) := by
        split
        · exact hk
        · exact List.mem_append_left _ hk
      exact ⟨[EngineAction.flush HandleKind.av pv, EngineAction.stopPlayer pv],
        by simp [stop_and_save_current_media, h1, hk2]⟩
    · by_cases h2 : st ≠ VlcState.stopped ∧ st ≠ VlcState.nothingSpecial ∧
          st ≠ VlcState.ended
      · exact ⟨[EngineAction.stopPlayer pv],
          by simp [stop_and_save_current_media, h1, h2, hk]⟩
      · exact ⟨[], by simp [stop_and_save_current_media, h1, h2, hk]⟩

theorem stop_trace_av_shape (s : SessionState) (p : String) (st : VlcState)
    (hm : s.vlc_media = some (p, st))
    (hst : st = VlcState.playing ∨ st = VlcState.paused) :
    ∃ pa, (stop_and_save_current_media s).2 =
      EngineAction.flush HandleKind.av p :: EngineAction.stopPlayer p :: pa ∧
    (stop_and_save_current_media s).1.vlc_media = some (p, VlcState.stopped) := by
  obtain ⟨vm, pd, keys⟩ := s
  simp only at hm
  subst hm
  rcases pd with _ | q
  · exact ⟨[], by simp [stop_and_save_current_media, hst],
      by simp [stop_and_save_current_media, hst]⟩
  · refine ⟨(if q ∈ (if p ∈ keys then keys else keys ++ [p]) then
        [EngineAction.flush HandleKind.pdfDoc q] else []) ++
        [EngineAction.closeDoc q], ?_, ?_⟩
    · simp [stop_and_save_current_media, hst]
    · simp [stop_and_save_current_media, hst]

theorem load_pdf_trace_shape (s : SessionState) (q : String) (pc : Nat)
    (h : s.pdf_doc = none) :
    ∃ tail, (load_pdf_media_actions s q pc).2 = EngineAction.openDoc q :: tail := by
  by_cases hpc : 0 < pc
  · exact ⟨[], by simp [load_pdf_media_actions, h, hpc]⟩
  · exact ⟨[EngineAction.closeDoc q], by simp [load_pdf_media_actions, h, hpc]⟩

theorem load_vlc_trace_from_stopped (s : SessionState) (q p : String)
    (hm : s.vlc_media = some (p, VlcState.stopped)) :
    (load_vlc_media_actions s q).2 =
      [EngineAction.stopPlayer p, EngineAction.detachMedia p,
        EngineAction.attachMedia q] := by
  simp [load_vlc_media_actions, hm]

/-- C3: along every sequence of selection transitions, at no prefix point of
the engine-action trace are two document handles open at once, nor two media
objects bound to the player at once (the running open-handle count of each
kind stays in [0, 1] after every single action); and within one transition
from an active session, the flush of the previous resource precedes the
release of its handle, which precedes the acquisition of the handle for the
newly selected resource. -/
theorem c3_single_session :
    ∀ (s : SessionState) (targets : List ClickTarget),
      (counts_le_one pdf_delta (state_pdf_count s) (run_clicks s targets).2 = true ∧
        counts_le_one av_delta (state_av_count s) (run_clicks s targets).2 = true) ∧
      (∀ p q pc, s.pdf_doc = some p → p ∈ s.store_keys →
        before (EngineAction.flush HandleKind.pdfDoc p) (EngineAction.closeDoc p)
          (handle_media_click s (ClickTarget.pdfResource q pc)).2 ∧
        before (EngineAction.closeDoc p) (EngineAction.openDoc q)
          (handle_media_click s (ClickTarget.pdfResource q pc)).2) ∧
      (∀ p st q, s.vlc_media = some (p, st) →
        (st = VlcState.playing ∨ st = VlcState.paused) →
        before (EngineAction.flush HandleKind.av p) (EngineAction.stopPlayer p)
          (handle_media_click s (ClickTarget.avResource q)).2 ∧
        before (EngineAction.detachMedia p) (EngineAction.attachMedia q)
          (handle_media_click s (ClickTarget.avResource q)).2) := by
  intro s targets
  refine ⟨run_clicks_counts s targets, ?_, ?_⟩
  · intro p q pc hp hk
    obtain ⟨va, hva⟩ := stop_trace_pdf_shape s p hp hk
    obtain ⟨tail, htail⟩ := load_pdf_trace_shape (stop_and_save_current_media s).1 q pc
      (stop_and_save_traces s).1
    have htr : (handle_media_click s (ClickTarget.pdfResource q pc)).2 =
        (stop_and_save_current_media s).2 ++
          (load_pdf_media_actions (stop_and_save_current_media s).1 q pc).2 := rfl
    rw [htr, hva, htail]
    constructor
    · exact ⟨va, [], EngineAction.openDoc q :: tail, by simp⟩
    · exact ⟨va ++ [EngineAction.flush HandleKind.pdfDoc p], [], tail, by simp⟩
  · intro p st q hm hst
    obtain ⟨pa, hpa, hvm1⟩ := stop_trace_av_shape s p st hm hst
    have hload := load_vlc_trace_from_stopped (stop_and_save_current_media s).1 q p hvm1
    have htr : (handle_media_click s (ClickTarget.avResource q)).2 =
        (stop_and_save_current_media s).2 ++
          (load_vlc_media_actions (stop_and_save_current_media s).1 q).2 := rfl
    rw [htr, hpa, hload]
    constructor
    · exact ⟨[], [], pa ++ [EngineAction.stopPlayer p, EngineAction.detachMedia p,
        EngineAction.attachMedia q], by simp⟩
    · exact ⟨EngineAction.flush HandleKind.av p :: EngineAction.stopPlayer p ::
        (pa ++ [EngineAction.stopPlayer p]), [], [], by simp⟩

/-- Witness for C3: a state with a.mp4 playing and b.pdf open (both with store
entries); a selection of c.pdf, and a selection of d.mp4. -/
theorem c3_single_session_witness :
    let s0 : SessionState :=
      { vlc_media := some ("a.mp4", VlcState.playing), pdf_doc := some "b.pdf"
        store_keys := ["a.mp4", "b.pdf"] }
    (counts_le_one pdf_delta (state_pdf_count s0)
        (run_clicks s0 [ClickTarget.pdfResource "c.pdf" 5]).2 = true ∧
      counts_le_one av_delta (state_av_count s0)
        (run_clicks s0 [ClickTarget.pdfResource "c.pdf" 5]).2 = true) ∧
    (before (EngineAction.flush HandleKind.pdfDoc "b.pdf")
        (EngineAction.closeDoc "b.pdf")
        (handle_media_click s0 (ClickTarget.pdfResource "c.pdf" 5)).2 ∧
      before (EngineAction.closeDoc "b.pdf") (EngineAction.openDoc "c.pdf")
        (handle_media_click s0 (ClickTarget.pdfResource "c.pdf" 5)).2) ∧
    (before (EngineAction.flush HandleKind.av "a.mp4")
        (EngineAction.stopPlayer "a.mp4")
        (handle_media_click s0 (ClickTarget.avResource "d.mp4")).2 ∧
      before (EngineAction.detachMedia "a.mp4") (EngineAction.attachMedia "d.mp4")
        (handle_media_click s0 (ClickTarget.avResource "d.mp4")).2) := by
  refine ⟨(c3_single_session _ [ClickTarget.pdfResource "c.pdf" 5]).1, ?_, ?_⟩
  · exact (c3_single_session _ [ClickTarget.pdfResource "c.pdf" 5]).2.1 "b.pdf"
      "c.pdf" 5 rfl (by simp)
  · exact (c3_single_session _ [ClickTarget.pdfResource "c.pdf" 5]).2.2 "a.mp4"
      VlcState.playing "d.mp4" rfl (Or.inl rfl)
